import Mathlib

/-!
Verification of the distributed-tracing core of dd-trace-cpp: a shallow
embedding of the context-propagation layer (W3C / Datadog / B3 extractors,
context merge, injectors) and of the trace-segment lifecycle (sampling
decision, span sampling, finalization), translated from
`w3c_propagation.cpp`, `extraction_util.cpp`, `span.cpp` and
`trace_segment.cpp`, together with theorems settling the specification's
claims about them.

Maps (`std::unordered_map`, header dictionaries) are modelled as
association lists with key-unique update operations; machine integers are
`Nat` (all parsed values are range-checked below 2^64 exactly where the
C++ parser checks), and floating-point rates are modelled as `Rat` (the
code only copies them, it never computes with them).
-/

namespace Datadog

/-- Association-list lookup: the model of `std::unordered_map::find` and of
`DictReader::lookup`. -/
def aFind {κ β : Type} [DecidableEq κ] : List (κ × β) → κ → Option β
  | [], _ => none
  | (k, v) :: rest, key => if k = key then some v else aFind rest key

/-- Association-list erase: the model of `std::unordered_map::erase`. -/
def aErase {κ β : Type} [DecidableEq κ] : List (κ × β) → κ → List (κ × β)
  | [], _ => []
  | (k, v) :: rest, key =>
    if k = key then aErase rest key else (k, v) :: aErase rest key

/-- Association-list insert-or-assign: the model of
`std::unordered_map::insert_or_assign` and of `operator[]=`. The first
binding of the key is replaced in place; a fresh key is appended. -/
def aInsert {κ β : Type} [DecidableEq κ] : List (κ × β) → κ → β → List (κ × β)
  | [], key, value => [(key, value)]
  | (k, v) :: rest, key, value =>
    if k = key then (key, value) :: rest else (k, v) :: aInsert rest key value

/-- The model of `std::unordered_map::insert` over a range: keys already
present in `dst` are kept, fresh keys are added. -/
def aMergeKeep {κ β : Type} [DecidableEq κ] (dst src : List (κ × β)) : List (κ × β) :=
  src.foldl (fun d kv => if (aFind d kv.1).isSome then d else d ++ [kv]) dst

/-- Header dictionaries and string-valued tag maps. -/
abbrev Dict := List (String × String)

/-- Whitespace recognized by `strip` / `trim` (`std::isspace` in the C
locale). -/
def isSpaceChar (c : Char) : Bool :=
  c = ' ' ∨ c = '\t' ∨ c = '\n' ∨ c = '\x0b' ∨ c = '\x0c' ∨ c = '\r'

/-- `strip` from `string_util.h`: remove leading and trailing whitespace. -/
def strip (s : List Char) : List Char :=
  ((s.dropWhile isSpaceChar).reverse.dropWhile isSpaceChar).reverse

/-- Digit value of a character with respect to `base` (10 or 16), lowercase
hex letters only, as accepted by `std::from_chars` via `parse_uint64` /
`parse_int`. -/
def digitVal (base : Nat) (c : Char) : Option Nat :=
  if '0' ≤ c ∧ c ≤ '9' ∧ c.toNat - '0'.toNat < base then
    some (c.toNat - '0'.toNat)
  else if 'a' ≤ c ∧ c ≤ 'f' ∧ base = 16 then
    some (c.toNat - 'a'.toNat + 10)
  else
    none

/-- Parse a non-empty all-digit string as a `Nat` in the given base. -/
def parseNat (base : Nat) (s : List Char) : Option Nat :=
  if s.isEmpty then none
  else s.foldlM (fun acc c => (digitVal base c).map (fun d => acc * base + d)) 0

/-- `parse_uint64` from `parse_util.cpp`: parse an unsigned 64-bit value;
out-of-range values are a parse error. -/
def parse_uint64 (base : Nat) (s : List Char) : Option Nat :=
  match parseNat base s with
  | none => none
  | some n => if n < 2 ^ 64 then some n else none

/-- `parse_int` from `parse_util.cpp`: parse a signed decimal (or hex) `int`;
out-of-range values are a parse error. -/
def parse_int (base : Nat) (s : List Char) : Option Int :=
  match s with
  | '-' :: rest =>
    match parseNat base rest with
    | none => none
    | some n => if n ≤ 2 ^ 31 then some (-(n : Int)) else none
  | _ =>
    match parseNat base s with
    | none => none
    | some n => if n < 2 ^ 31 then some (n : Int) else none

/-- Split a character list on a separator; concatenating the pieces with the
separator restored yields the input back. -/
def splitChar (sep : Char) : List Char → List (List Char)
  | [] => [[]]
  | c :: rest =>
    match splitChar sep rest with
    | [] => if c = sep then [[], []] else [[c]]
    | h :: t => if c = sep then [] :: h :: t else (c :: h) :: t

/-- Split at the first occurrence of `sep`: `some (before, after)` when `sep`
occurs, `none` otherwise. This is the `std::find`-based key/value split used
throughout the extractors. -/
def splitFirst (sep : Char) : List Char → Option (List Char × List Char)
  | [] => none
  | c :: rest =>
    if c = sep then some ([], rest)
    else (splitFirst sep rest).map (fun p => (c :: p.1, p.2))

/-- Join pieces with a separator character. -/
def intercalateChar (sep : Char) : List (List Char) → List Char
  | [] => []
  | [s] => s
  | s :: rest => s ++ sep :: intercalateChar sep rest

/-- `starts_with` from `string_util.h`, on strings. -/
def startsWithStr (s pre : String) : Bool :=
  List.isPrefixOf pre.data s.data

/-- 128-bit trace ID (`trace_id.h`): `low` and `high` 64-bit halves. -/
structure TraceID where
  low : Nat
  high : Nat
deriving DecidableEq, Repr

/-- The `TraceID(uint64_t)` constructor: high half zero. -/
def TraceID.ofLow (n : Nat) : TraceID := { low := n, high := 0 }

/-- Propagation styles (`propagation_style.h`). -/
inductive PropagationStyle where
  | DATADOG
  | B3
  | W3C
  | NONE
deriving DecidableEq, Repr

/-- `ExtractedData` (`extracted_data.h`): the intermediate context produced
by one extractor. -/
structure ExtractedData where
  style : PropagationStyle
  trace_id : Option TraceID
  parent_id : Option Nat
  sampling_priority : Option Int
  origin : Option String
  trace_tags : List (String × String)
  full_w3c_trace_id_hex : Option String
  additional_w3c_tracestate : Option String
  additional_datadog_w3c_tracestate : Option String
  datadog_w3c_parent_id : Option String
  headers_examined : List (String × String)
deriving DecidableEq, Repr

/-- A default-constructed `ExtractedData{}`. -/
def ExtractedData.empty : ExtractedData :=
  { style := PropagationStyle.NONE
    trace_id := none
    parent_id := none
    sampling_priority := none
    origin := none
    trace_tags := []
    full_w3c_trace_id_hex := none
    additional_w3c_tracestate := none
    additional_datadog_w3c_tracestate := none
    datadog_w3c_parent_id := none
    headers_examined := [] }

/-- The submatch groups of the `traceparent` pattern of
`w3c_propagation.cpp`: version, 32-hex trace ID, its low 16 hex, the 16-hex
parent span ID, and the 2-hex flags. -/
structure TraceparentFields where
  version : List Char
  traceIdHex : List Char
  traceIdLowHex : List Char
  parentIdHex : List Char
  flagsHex : List Char
deriving DecidableEq, Repr

/-- A lowercase hex digit, the character class of the `traceparent` regular
expression. -/
def isHexLower (c : Char) : Bool :=
  ('0' ≤ c ∧ c ≤ '9') ∨ ('a' ≤ c ∧ c ≤ 'f')

/-- The anchored `traceparent` pattern of `w3c_propagation.cpp`:
`([0-9a-f]\x7b2\x7d)-([0-9a-f]\x7b16\x7d([0-9a-f]\x7b16\x7d))-([0-9a-f]\x7b16\x7d)-([0-9a-f]\x7b2\x7d)(?:$|-.*)`,
rendered as a fixed-layout matcher. -/
def matchTraceparent (s : List Char) : Option TraceparentFields :=
  let version := s.take 2
  let tid := (s.drop 3).take 32
  let pid := (s.drop 36).take 16
  let flags := (s.drop 53).take 2
  let rest := s.drop 55
  if version.length = 2 ∧ version.all isHexLower ∧
     (s.drop 2).take 1 = ['-'] ∧
     tid.length = 32 ∧ tid.all isHexLower ∧
     (s.drop 35).take 1 = ['-'] ∧
     pid.length = 16 ∧ pid.all isHexLower ∧
     (s.drop 52).take 1 = ['-'] ∧
     flags.length = 2 ∧ flags.all isHexLower ∧
     (rest = [] ∨ rest.take 1 = ['-']) then
    some { version := version
           traceIdHex := tid
           traceIdLowHex := (s.drop 19).take 16
           parentIdHex := pid
           flagsHex := flags }
  else
    none

/-- `extract_traceparent` from `w3c_propagation.cpp`: populate `result` from
the `traceparent` header; return the value for the
`_dd.w3c_extraction_error` tag when extraction fails. -/
def extract_traceparent (headers : Dict) (result : ExtractedData) :
    ExtractedData × Option String :=
  match aFind headers "traceparent" with
  | none => (result, none)
  | some raw =>
    let s := strip raw.data
    match matchTraceparent s with
    | none => (result, some "malformed_traceparent")
    | some m =>
      if m.version = ['f', 'f'] then (result, some "invalid_version")
      else
        let result1 := { result with full_w3c_trace_id_hex := some (String.mk m.traceIdHex) }
        if m.traceIdHex.all (fun c => c = '0') then (result1, some "trace_id_zero")
        else
          let result2 := { result1 with
            trace_id := some (TraceID.ofLow ((parse_uint64 16 m.traceIdLowHex).getD 0)) }
          let pid := (parse_uint64 16 m.parentIdHex).getD 0
          let result3 := { result2 with parent_id := some pid }
          if pid = 0 then (result3, some "parent_id_zero")
          else
            let flags := (parse_uint64 16 m.flagsHex).getD 0
            ({ result3 with sampling_priority := some ((flags % 2 : Nat) : Int) }, none)

/-- Locate the single `dd` entry among the comma-separated `tracestate`
segments: returns its value together with the raw segments before and after
it (the loop body of `parse_tracestate` in `w3c_propagation.cpp`). -/
def findDDEntry : List (List Char) → Option (List Char × List (List Char) × List (List Char))
  | [] => none
  | seg :: rest =>
    let pair := strip seg
    let keep := fun (r : Option (List Char × List (List Char) × List (List Char))) =>
      match r with
      | none => none
      | some (v, before, after) => some (v, seg :: before, after)
    if pair = [] then keep (findDDEntry rest)
    else
      match splitFirst '=' pair with
      | none => keep (findDDEntry rest)
      | some (key, value) =>
        if key = ['d', 'd'] then some (value, [], rest)
        else keep (findDDEntry rest)

/-- `parse_tracestate` from `w3c_propagation.cpp`: split off the `dd` entry;
`some (datadog_value, other_entries)` where `other_entries` re-joins what
precedes and follows the `dd` entry without a doubled comma at the seam. -/
def parse_tracestate (tracestate : List Char) : Option (List Char × List Char) :=
  match findDDEntry (splitChar ',' tracestate) with
  | none => none
  | some (v, before, after) =>
    let other :=
      if before = [] then
        if after = [] then [] else intercalateChar ',' after
      else
        intercalateChar ',' before ++
          (if after = [] then [] else ',' :: intercalateChar ',' after)
    some (v, other)

/-- One iteration of the `parse_datadog_tracestate` loop of
`w3c_propagation.cpp`, handling a single `;`-separated `key:value` pair of
the `dd` entry. -/
def processDDPair (result : ExtractedData) (pair : List Char) : ExtractedData :=
  if pair = [] then result
  else
    match splitFirst ':' pair with
    | none => result
    | some (key, value) =>
      if key = ['o'] then { result with origin := some (String.mk value) }
      else if key = ['s'] then
        match parse_int 10 value with
        | none => result
        | some p =>
          match result.sampling_priority with
          | none => { result with sampling_priority := some p }
          | some prior =>
            if decide (0 < prior) = decide (0 < p) then
              { result with sampling_priority := some p }
            else result
      else if List.isPrefixOf ['t', '.'] key then
        let tagName := String.mk ("_dd.p.".data ++ key.drop 2)
        let decoded := String.mk (value.map (fun c => if c = '~' then '=' else c))
        { result with trace_tags := aInsert result.trace_tags tagName decoded }
      else
        match result.additional_datadog_w3c_tracestate with
        | none => { result with additional_datadog_w3c_tracestate := some (String.mk pair) }
        | some s =>
          { result with additional_datadog_w3c_tracestate := some (s ++ String.mk (';' :: pair)) }

/-- `parse_datadog_tracestate` from `w3c_propagation.cpp`. -/
def parse_datadog_tracestate (result : ExtractedData) (datadog_value : List Char) :
    ExtractedData :=
  (splitChar ';' datadog_value).foldl processDDPair result

/-- `extract_tracestate` from `w3c_propagation.cpp`. -/
def extract_tracestate (headers : Dict) (result : ExtractedData) : ExtractedData :=
  match aFind headers "tracestate" with
  | none => result
  | some raw =>
    let tracestate := strip raw.data
    match parse_tracestate tracestate with
    | none =>
      if tracestate = [] then result
      else { result with additional_w3c_tracestate := some (String.mk tracestate) }
    | some (dv, other) =>
      let r1 :=
        if other = [] then result
        else { result with additional_w3c_tracestate := some (String.mk other) }
      parse_datadog_tracestate r1 dv

/-- `extract_w3c` from `w3c_propagation.cpp`: on a traceparent error, record
the `_dd.w3c_extraction_error` span tag and return a fresh empty context;
otherwise continue with `tracestate` when a trace ID was found. -/
def extract_w3c (headers : Dict) (span_tags : Dict) : ExtractedData × Dict :=
  let step := extract_traceparent headers ExtractedData.empty
  match step.2 with
  | some e => (ExtractedData.empty, aInsert span_tags "_dd.w3c_extraction_error" e)
  | none =>
    match step.1.trace_id with
    | none => (step.1, span_tags)
    | some _ => (extract_tracestate headers step.1, span_tags)

/-- Spec-side classification of W3C extraction failures (section 4.1 / 7 of
the specification): the error-tag value a failing `traceparent` value is
expected to produce, `none` when extraction should succeed. -/
def w3c_error_spec (s : List Char) : Option String :=
  match matchTraceparent s with
  | none => some "malformed_traceparent"
  | some m =>
    if m.version = ['f', 'f'] then some "invalid_version"
    else if m.traceIdHex.all (fun c => c = '0') then some "trace_id_zero"
    else if (parse_uint64 16 m.parentIdHex).getD 0 = 0 then some "parent_id_zero"
    else none

/-- Modelled from the spec: the extraction driver (`tracer.cpp`, not under
`src/`) completes a W3C trace ID by filling in the high 64 bits from the
preserved exact 32-hex form; section 8 scenario 1 requires
`trace_id.high = 0x4bf92f3577b34da6` for the example `traceparent`. -/
def complete_trace_id_high (result : ExtractedData) : ExtractedData :=
  match result.trace_id, result.full_w3c_trace_id_hex with
  | some tid, some hexStr =>
    { result with
      trace_id := some { tid with high := (parse_uint64 16 (hexStr.data.take 16)).getD 0 } }
  | _, _ => result

/-- Modelled from the spec: hex encoding (`hex.h`, not under `src/`) —
lowercase hexadecimal, no leading zeros. -/
def hexChars (n : Nat) : List Char :=
  Nat.toDigits 16 n

/-- `hex_padded` (`hex.h`): 16-character left-zero-padded lowercase hex of a
64-bit value. -/
def hex_padded (n : Nat) : String :=
  String.mk (List.replicate (16 - (hexChars n).length) '0' ++ hexChars n)

/-- `parse_trace_id_high` from `extraction_util.cpp`: the value of the
`_dd.p.tid` tag must be exactly 16 hex characters. -/
def parse_trace_id_high (value : String) : Option Nat :=
  if value.data.length ≠ 16 then none
  else parse_uint64 16 value.data

/-- Modelled from the spec: `decode_tags` (`tag_propagation.cpp`, not under
`src/`) — `key=value` pairs joined by commas, splitting each pair at its
first equals sign; a pair lacking an equals sign is a decoding error
(specification section 6). -/
def decode_tags (s : List Char) : Except String (List (String × String))
  :=
  if s = [] then Except.ok []
  else decode_tags_list (splitChar ',' s)
where
  decode_tags_list : List (List Char) → Except String (List (String × String))
    | [] => Except.ok []
    | seg :: rest =>
      match splitFirst '=' seg with
      | none => Except.error "invalid trace tags: a pair is missing a separator"
      | some (k, v) =>
        match decode_tags_list rest with
        | Except.ok pairs => Except.ok ((String.mk k, String.mk v) :: pairs)
        | Except.error e => Except.error e

/-- Modelled from the spec: `encode_tags` (`tag_propagation.cpp`, not under
`src/`) — `key=value` pairs joined by commas (specification section 6). -/
def encode_tags (tags : Dict) : List Char :=
  intercalateChar ',' (tags.map (fun kv => kv.1.data ++ '=' :: kv.2.data))

/-- The per-pair body of the `handle_trace_tags` loop in
`extraction_util.cpp`, threading the context under construction and the
local-root span tags. -/
def handleTagPair (acc : ExtractedData × Dict) (kv : String × String) :
    ExtractedData × Dict :=
  let res := acc.1
  let span_tags := acc.2
  if ¬ startsWithStr kv.1 "_dd.p." then (res, span_tags)
  else if kv.1 = "_dd.p.tid" then
    match parse_trace_id_high kv.2 with
    | none => (res, aInsert span_tags "_dd.propagation_error" ("malformed_tid " ++ kv.2))
    | some high =>
      let res1 :=
        match res.trace_id with
        | some tid => { res with trace_id := some { tid with high := high } }
        | none => res
      ({ res1 with trace_tags := res1.trace_tags ++ [(kv.1, kv.2)] }, span_tags)
  else
    ({ res with trace_tags := res.trace_tags ++ [(kv.1, kv.2)] }, span_tags)

/-- `handle_trace_tags` from `extraction_util.cpp`: decode the
`x-datadog-tags` header; a decoding error is non-fatal and sets
`_dd.propagation_error = "decoding_error"`. -/
def handle_trace_tags (trace_tags : List Char) (result : ExtractedData)
    (span_tags : Dict) : ExtractedData × Dict :=
  match decode_tags trace_tags with
  | Except.error _ => (result, aInsert span_tags "_dd.propagation_error" "decoding_error")
  | Except.ok pairs => pairs.foldl handleTagPair (result, span_tags)

/-- `extract_id_header` from `extraction_util.cpp`. -/
def extract_id_header (headers : Dict) (header : String) (header_kind : String)
    (style_name : String) (base : Nat) : Except String (Option Nat) :=
  match aFind headers header with
  | none => Except.ok none
  | some found =>
    match parse_uint64 base (strip found.data) with
    | some v => Except.ok (some v)
    | none =>
      Except.error
        ("Could not extract " ++ style_name ++ "-style " ++ header_kind ++
         "ID from " ++ header ++ ": " ++ found ++ " ")

/-- `extract_datadog` from `extraction_util.cpp`. -/
def extract_datadog (headers : Dict) (span_tags : Dict) :
    Except String (ExtractedData × Dict) :=
  let result0 := { ExtractedData.empty with style := PropagationStyle.DATADOG }
  match extract_id_header headers "x-datadog-trace-id" "trace" "Datadog" 10 with
  | Except.error e => Except.error e
  | Except.ok tid =>
    let result1 :=
      match tid with
      | some t => { result0 with trace_id := some (TraceID.ofLow t) }
      | none => result0
    match extract_id_header headers "x-datadog-parent-id" "parent span" "Datadog" 10 with
    | Except.error e => Except.error e
    | Except.ok pid =>
      let result2 := { result1 with parent_id := pid }
      let priorityStep : Except String ExtractedData :=
        match aFind headers "x-datadog-sampling-priority" with
        | none => Except.ok result2
        | some found =>
          match parse_int 10 (strip found.data) with
          | none =>
            Except.error
              ("Could not extract Datadog-style sampling priority from x-datadog-sampling-priority: "
               ++ found ++ " ")
          | some p => Except.ok { result2 with sampling_priority := some p }
      match priorityStep with
      | Except.error e => Except.error e
      | Except.ok result3 =>
        let result4 :=
          match aFind headers "x-datadog-origin" with
          | some o => { result3 with origin := some o }
          | none => result3
        match aFind headers "x-datadog-tags" with
        | some tags => Except.ok (handle_trace_tags tags.data result4 span_tags)
        | none => Except.ok (result4, span_tags)

/-- The context produced by `extract_datadog`, with a failed extraction
collapsed to the empty context (convenience for stating concrete
scenarios). -/
def extract_datadog_ctx (headers : Dict) : ExtractedData :=
  match extract_datadog headers [] with
  | Except.ok (ctx, _) => ctx
  | Except.error _ => ExtractedData.empty

/-- Context-map lookup (`contexts.find(style)` in `extraction_util.cpp`). -/
def ctxFind (contexts : List (PropagationStyle × ExtractedData))
    (style : PropagationStyle) : Option ExtractedData :=
  aFind contexts style

/-- `merge` from `extraction_util.cpp`: reconcile the primary context with
the W3C context of the same trace ID, preserving a diverging Datadog parent
span ID as `datadog_w3c_parent_id`. -/
def merge (first_style : PropagationStyle)
    (contexts : List (PropagationStyle × ExtractedData)) : ExtractedData :=
  match ctxFind contexts first_style with
  | none => ExtractedData.empty
  | some found =>
    let result := found
    match ctxFind contexts PropagationStyle.W3C with
    | none => result
    | some w3c =>
      if w3c.trace_id = result.trace_id then
        let result1 := { result with
          additional_w3c_tracestate := w3c.additional_w3c_tracestate
          additional_datadog_w3c_tracestate := w3c.additional_datadog_w3c_tracestate
          headers_examined := result.headers_examined ++ w3c.headers_examined }
        if result1.parent_id ≠ w3c.parent_id then
          let result2 :=
            if (match w3c.datadog_w3c_parent_id with
                | some p => decide (p ≠ "0000000000000000")
                | none => false) then
              { result1 with datadog_w3c_parent_id := w3c.datadog_w3c_parent_id }
            else
              match ctxFind contexts PropagationStyle.DATADOG with
              | some dd =>
                if dd.trace_id = result1.trace_id ∧ dd.parent_id.isSome then
                  { result1 with
                    datadog_w3c_parent_id := some (hex_padded (dd.parent_id.getD 0)) }
                else result1
              | none => result1
          { result2 with parent_id := w3c.parent_id }
        else result1
      else result

/-- Modelled from the spec: the extraction driver (`tracer.cpp`, not under
`src/`) walks the enabled styles in order and the first style whose context
carries a non-null `trace_id` becomes the primary (specification
section 4.2, step 1). -/
def first_style_with_trace_id (enabled : List PropagationStyle)
    (contexts : List (PropagationStyle × ExtractedData)) : Option PropagationStyle :=
  enabled.find? (fun st =>
    match ctxFind contexts st with
    | some c => c.trace_id.isSome
    | none => false)

/-- Modelled from the spec: extraction-driver merge (`tracer.cpp`, not under
`src/`) — pick the primary style per section 4.2 and hand it to the `merge`
of `extraction_util.cpp`; if no enabled style yielded a trace ID, the merged
context is empty. -/
def merge_contexts (enabled : List PropagationStyle)
    (contexts : List (PropagationStyle × ExtractedData)) : ExtractedData :=
  match first_style_with_trace_id enabled contexts with
  | none => ExtractedData.empty
  | some st => merge st contexts

/-- `SamplingDecision::Origin` (`sampling_decision.h`). -/
inductive SDOrigin where
  | LOCAL
  | EXTRACTED
deriving DecidableEq, Repr

/-- `SamplingDecision` (`sampling_decision.h`); rates are `Rat` stand-ins for
the C++ doubles, which the embedded code only copies. -/
structure SamplingDecision where
  priority : Int
  mechanism : Option Int
  origin : SDOrigin
  configured_rate : Option Rat
  limiter_effective_rate : Option Rat
  limiter_max_per_second : Option Rat
deriving DecidableEq, Repr

/-- A default-constructed `SamplingDecision`. -/
def SamplingDecision.default : SamplingDecision :=
  { priority := 0
    mechanism := none
    origin := SDOrigin.LOCAL
    configured_rate := none
    limiter_effective_rate := none
    limiter_max_per_second := none }

/-- `SpanData` (`span_data.h`): times are modelled as integers; `tags` and
`numeric_tags` are the two disjoint tag maps. -/
structure SpanData where
  trace_id : TraceID
  span_id : Nat
  parent_id : Nat
  service : String
  service_type : String
  name : String
  resource : String
  start_wall : Int
  start_tick : Int
  duration : Int
  error : Bool
  tags : Dict
  numeric_tags : List (String × Rat)
deriving DecidableEq, Repr

/-- A default-constructed `SpanData`. -/
def SpanData.empty : SpanData :=
  { trace_id := TraceID.ofLow 0
    span_id := 0
    parent_id := 0
    service := ""
    service_type := ""
    name := ""
    resource := ""
    start_wall := 0
    start_tick := 0
    duration := 0
    error := false
    tags := []
    numeric_tags := [] }

/-- The structural state of a `TraceSegment` (`trace_segment.h`): the span
vector, the finished counter, the shared sampling decision and the
propagated trace-tag map, plus the configuration the finalizer and the
injectors read. The trace sampler, span sampler and collector are external
collaborators and are passed to the operations as functions. -/
structure TraceSegment where
  spans : List SpanData
  num_finished : Nat
  sampling_decision : Option SamplingDecision
  trace_tags : Dict
  origin : Option String
  hostname : Option String
  tags_header_max_size : Nat
  full_w3c_trace_id_hex : Option String
  additional_w3c_tracestate : Option String
  additional_datadog_w3c_tracestate : Option String
  injection_styles : List PropagationStyle
deriving DecidableEq, Repr

/-- `TraceSegment::update_decision_maker_trace_tag` (`trace_segment.cpp`):
keep `_dd.p.dm` in the trace-tag map exactly when the decision's priority is
positive, with value `"-" + mechanism`. -/
def update_decision_maker_trace_tag (trace_tags : Dict) (d : SamplingDecision) : Dict :=
  if d.priority ≤ 0 then aErase trace_tags "_dd.p.dm"
  else aInsert trace_tags "_dd.p.dm" ("-" ++ toString (d.mechanism.getD 0))

/-- `TraceSegment::override_sampling_priority` (`trace_segment.cpp`):
install a `MANUAL` (mechanism 4), `LOCAL` decision with the given priority
and refresh the `_dd.p.dm` tag. -/
def override_sampling_priority (seg : TraceSegment) (priority : Int) : TraceSegment :=
  let d : SamplingDecision :=
    { priority := priority
      mechanism := some 4
      origin := SDOrigin.LOCAL
      configured_rate := none
      limiter_effective_rate := none
      limiter_max_per_second := none }
  { seg with
    sampling_decision := some d
    trace_tags := update_decision_maker_trace_tag seg.trace_tags d }

/-- `TraceSegment::make_sampling_decision_if_null` (`trace_segment.cpp`):
when no decision exists, obtain one from the trace sampler (an external
collaborator, passed as `trace_decide`) applied to the local root (the
first registered span) and refresh the `_dd.p.dm` tag. -/
def make_sampling_decision_if_null (trace_decide : SpanData → SamplingDecision)
    (seg : TraceSegment) : TraceSegment :=
  match seg.sampling_decision with
  | some _ => seg
  | none =>
    let d := trace_decide (seg.spans.headD SpanData.empty)
    { seg with
      sampling_decision := some d
      trace_tags := update_decision_maker_trace_tag seg.trace_tags d }

/-- The span-sampling step of `TraceSegment::span_finished`
(`trace_segment.cpp`): `span_sampler` abstracts
`SpanSampler::match(span)` followed by `rule->decide(span)` — `none` when no
span rule matches. When the rule's decision keeps the span, write the
`_dd.span_sampling.*` numeric tags onto it. -/
def apply_span_sampling (span_sampler : SpanData → Option SamplingDecision)
    (span : SpanData) : SpanData :=
  match span_sampler span with
  | none => span
  | some decision =>
    if decision.priority ≤ 0 then span
    else
      let nt := aInsert span.numeric_tags "_dd.span_sampling.mechanism"
        ((decision.mechanism.getD 0 : Int) : Rat)
      let nt1 := aInsert nt "_dd.span_sampling.rule_rate" (decision.configured_rate.getD 0)
      let nt2 :=
        match decision.limiter_max_per_second with
        | some m => aInsert nt1 "_dd.span_sampling.max_per_second" m
        | none => nt1
      { span with numeric_tags := nt2 }

/-- The origin-replication step of `TraceSegment::span_finished`
(`trace_segment.cpp`): when the segment carries an origin, it is repeated on
every span's tags as `_dd.origin`. -/
def with_origin_tag (o : Option String) (span : SpanData) : SpanData :=
  match o with
  | some s => { span with tags := aInsert span.tags "_dd.origin" s }
  | none => span

/-- The local-root tag population of `TraceSegment::span_finished`
(`trace_segment.cpp`): merge the trace tags into the root's tags (keeping
existing keys), write the `_sampling_priority_v1` numeric tag, the
`_dd.hostname` tag when configured, and — for a `LOCAL` decision — the
mechanism-specific rate tags. -/
def finalize_root_tags (seg : TraceSegment) (d : SamplingDecision)
    (root0 : SpanData) : SpanData :=
  let root1 := { root0 with tags := aMergeKeep root0.tags seg.trace_tags }
  let root2 := { root1 with
    numeric_tags := aInsert root1.numeric_tags "_sampling_priority_v1" (d.priority : Rat) }
  let root3 :=
    match seg.hostname with
    | some h => { root2 with tags := aInsert root2.tags "_dd.hostname" h }
    | none => root2
  if d.origin = SDOrigin.LOCAL then
    if d.mechanism = some 1 ∨ d.mechanism = some 0 then
      { root3 with
        numeric_tags := aInsert root3.numeric_tags "_dd.agent_psr" (d.configured_rate.getD 0) }
    else if d.mechanism = some 3 then
      let r := { root3 with
        numeric_tags := aInsert root3.numeric_tags "_dd.rule_psr" (d.configured_rate.getD 0) }
      match d.limiter_effective_rate with
      | some lr => { r with numeric_tags := aInsert r.numeric_tags "_dd.limit_psr" lr }
      | none => r
    else root3
  else root3

/-- The finalization tail of `TraceSegment::span_finished`
(`trace_segment.cpp`), run once every span has finished and a sampling
decision exists: span sampling when the trace is dropped, local-root tag
population, and origin replication; the returned list is the batch handed to
the collector in the single `send` call. -/
def finalize_spans (span_sampler : SpanData → Option SamplingDecision)
    (seg : TraceSegment) : List SpanData :=
  let d := seg.sampling_decision.getD SamplingDecision.default
  let spans1 :=
    if d.priority ≤ 0 then seg.spans.map (apply_span_sampling span_sampler)
    else seg.spans
  match spans1 with
  | [] => []
  | root0 :: rest =>
    let root1 := { root0 with tags := aMergeKeep root0.tags seg.trace_tags }
    let root2 := { root1 with
      numeric_tags := aInsert root1.numeric_tags "_sampling_priority_v1" (d.priority : Rat) }
    let root3 :=
      match seg.hostname with
      | some h => { root2 with tags := aInsert root2.tags "_dd.hostname" h }
      | none => root2
    let root4 :=
      if d.origin = SDOrigin.LOCAL then
        if d.mechanism = some 1 ∨ d.mechanism = some 0 then
          { root3 with
            numeric_tags := aInsert root3.numeric_tags "_dd.agent_psr" (d.configured_rate.getD 0) }
        else if d.mechanism = some 3 then
          let r := { root3 with
            numeric_tags := aInsert root3.numeric_tags "_dd.rule_psr" (d.configured_rate.getD 0) }
          match d.limiter_effective_rate with
          | some lr => { r with numeric_tags := aInsert r.numeric_tags "_dd.limit_psr" lr }
          | none => r
        else root3
      else root3
    let finalSpans := root4 :: rest
    match seg.origin with
    | some o => finalSpans.map (fun s => { s with tags := aInsert s.tags "_dd.origin" o })
    | none => finalSpans

/-- `TraceSegment::span_finished` (`trace_segment.cpp`): bump the finished
counter; when the last span finishes, materialize the sampling decision if
null, finalize, and hand the whole span vector to the collector — the
second component is `some batch` exactly when `send` happens. -/
def span_finished (trace_decide : SpanData → SamplingDecision)
    (span_sampler : SpanData → Option SamplingDecision)
    (seg : TraceSegment) : TraceSegment × Option (List SpanData) :=
  let seg1 := { seg with num_finished := seg.num_finished + 1 }
  if seg1.num_finished < seg1.spans.length then (seg1, none)
  else
    let seg2 := make_sampling_decision_if_null trace_decide seg1
    let batch := finalize_spans span_sampler seg2
    ({ seg2 with spans := [] }, some batch)

/-- The `_dd.p.dm` invariant of specification section 3: the trace-tag map
holds the key exactly when a sampling decision exists with positive
priority, and then its value is `"-"` followed by the decimal mechanism. -/
def dm_invariant (seg : TraceSegment) : Prop :=
  match seg.sampling_decision with
  | none => aFind seg.trace_tags "_dd.p.dm" = none
  | some d =>
    if 0 < d.priority then
      aFind seg.trace_tags "_dd.p.dm" = some ("-" ++ toString (d.mechanism.getD 0))
    else
      aFind seg.trace_tags "_dd.p.dm" = none

/-- Modelled from the spec: `tags::is_internal` (`tags.cpp`, not under
`src/`) — the reserved tag namespace of specification section 6: keys
beginning with `_dd.`, plus `error.message`, `error.type`, `error.stack`. -/
def is_internal (name : String) : Bool :=
  startsWithStr name "_dd." ∨ name = "error.message" ∨ name = "error.type" ∨
    name = "error.stack"

/-- `Span::set_tag` (`span.cpp`): rejected for reserved names. -/
def set_tag (span : SpanData) (name value : String) : SpanData :=
  if is_internal name then span
  else { span with tags := aInsert span.tags name value }

/-- `Span::remove_tag` (`span.cpp`): rejected for reserved names. -/
def remove_tag (span : SpanData) (name : String) : SpanData :=
  if is_internal name then span
  else { span with tags := aErase span.tags name }

/-- `Span::lookup_tag` (`span.cpp`): reserved names are invisible. -/
def lookup_tag (span : SpanData) (name : String) : Option String :=
  if is_internal name then none
  else aFind span.tags name

/-- `Span::set_error` (`span.cpp`): clearing the error also erases
`error.message` and `error.type` (but not `error.stack`). -/
def set_error (span : SpanData) (is_error : Bool) : SpanData :=
  let span1 := { span with error := is_error }
  if is_error then span1
  else { span1 with tags := aErase (aErase span1.tags "error.message") "error.type" }

/-- `Span::set_error_message` (`span.cpp`). -/
def set_error_message (span : SpanData) (message : String) : SpanData :=
  { span with error := true, tags := aInsert span.tags "error.message" message }

/-- `Span::set_error_type` (`span.cpp`). -/
def set_error_type (span : SpanData) (ty : String) : SpanData :=
  { span with error := true, tags := aInsert span.tags "error.type" ty }

/-- `Span::set_error_stack` (`span.cpp`). -/
def set_error_stack (span : SpanData) (stack : String) : SpanData :=
  { span with error := true, tags := aInsert span.tags "error.stack" stack }

/-- `inject_trace_tags` from `trace_segment.cpp`: encode the trace tags; an
oversized encoding suppresses the `x-datadog-tags` header and records
`_dd.propagation_error = "inject_max_size"` on the local root; a non-empty
in-limit encoding is written verbatim. Returns the updated header writer and
local-root tags. -/
def inject_trace_tags (writer : Dict) (trace_tags : Dict)
    (tags_header_max_size : Nat) (local_root_tags : Dict) : Dict × Dict :=
  let encoded := encode_tags trace_tags
  if encoded.length > tags_header_max_size then
    (writer, aInsert local_root_tags "_dd.propagation_error" "inject_max_size")
  else if encoded ≠ [] then
    (aInsert writer "x-datadog-tags" (String.mk encoded), local_root_tags)
  else
    (writer, local_root_tags)

/-- The `PropagationStyle::DATADOG` branch of `TraceSegment::inject`
(`trace_segment.cpp`): write the Datadog headers for the given span under
the snapshotted priority and trace tags, then run `inject_trace_tags`
against the local root's tags. -/
def inject_datadog (writer : Dict) (span : SpanData) (sampling_priority : Int)
    (seg_origin : Option String) (trace_tags : Dict) (tags_header_max_size : Nat)
    (local_root_tags : Dict) : Dict × Dict :=
  let w1 := aInsert writer "x-datadog-trace-id" (toString span.trace_id.low)
  let w2 := aInsert w1 "x-datadog-parent-id" (toString span.span_id)
  let w3 := aInsert w2 "x-datadog-sampling-priority" (toString sampling_priority)
  let w4 :=
    match seg_origin with
    | some o => aInsert w3 "x-datadog-origin" o
    | none => w3
  inject_trace_tags w4 trace_tags tags_header_max_size local_root_tags

/-- A segment with one registered, unfinished span and no sampling decision,
used to instantiate segment-level theorems on concrete inputs. -/
def segNoDecision : TraceSegment :=
  { spans := [SpanData.empty]
    num_finished := 0
    sampling_decision := none
    trace_tags := []
    origin := none
    hostname := none
    tags_header_max_size := 512
    full_w3c_trace_id_hex := none
    additional_w3c_tracestate := none
    additional_datadog_w3c_tracestate := none
    injection_styles := [PropagationStyle.DATADOG] }

/-- A span differing from the default only in its operation name. -/
def spanNamed (n : String) : SpanData :=
  { SpanData.empty with name := n }

/-- The specification's scenario 6 segment: three spans, two already
finished, and the sampling priority forced to `USER_DROP` (-1) through
`override_sampling_priority`. -/
def scenario6Segment : TraceSegment :=
  override_sampling_priority
    { segNoDecision with
        spans := [spanNamed "one", spanNamed "two", spanNamed "three"]
        num_finished := 2 }
    (-1)

/-- The specification's scenario 6 span sampler: a single span rule matching
the span named `two`, keeping it with mechanism `SPAN_RULE` (8). -/
def scenario6Sampler : SpanData → Option SamplingDecision := fun sp =>
  if sp.name = "two" then
    some { priority := 2
           mechanism := some 8
           origin := SDOrigin.LOCAL
           configured_rate := some 1
           limiter_effective_rate := none
           limiter_max_per_second := none }
  else none

theorem aFind_aInsert_self {κ β : Type} [DecidableEq κ] (m : List (κ × β)) (k : κ) (v : β) :
    aFind (aInsert m k v) k = some v := by
  induction m with
  | nil => simp [aInsert, aFind]
  | cons hd tl ih =>
    obtain ⟨k0, v0⟩ := hd
    by_cases h : k0 = k
    · simp [aInsert, h, aFind]
    · simp [aInsert, h, aFind, ih]

theorem aFind_aInsert_ne {κ β : Type} [DecidableEq κ] (m : List (κ × β)) (k k2 : κ) (v : β)
    (h : k2 ≠ k) : aFind (aInsert m k v) k2 = aFind m k2 := by
  induction m with
  | nil => simp [aInsert, aFind, Ne.symm h]
  | cons hd tl ih =>
    obtain ⟨k0, v0⟩ := hd
    by_cases hk : k0 = k
    · subst hk
      simp [aInsert, aFind, Ne.symm h]
    · simp only [aInsert, if_neg hk, aFind]
      by_cases hk2 : k0 = k2
      · simp [hk2]
      · simp [hk2, ih]

theorem aFind_aErase_self {κ β : Type} [DecidableEq κ] (m : List (κ × β)) (k : κ) :
    aFind (aErase m k) k = none := by
  induction m with
  | nil => simp [aErase, aFind]
  | cons hd tl ih =>
    obtain ⟨k0, v0⟩ := hd
    by_cases h : k0 = k
    · simp [aErase, h, ih]
    · simp [aErase, h, aFind, ih]

theorem aFind_aErase_ne {κ β : Type} [DecidableEq κ] (m : List (κ × β)) (k k2 : κ)
    (h : k2 ≠ k) : aFind (aErase m k) k2 = aFind m k2 := by
  induction m with
  | nil => simp [aErase, aFind]
  | cons hd tl ih =>
    obtain ⟨k0, v0⟩ := hd
    by_cases hk : k0 = k
    · subst hk
      simp [aErase, aFind, Ne.symm h, ih]
    · simp only [aErase, if_neg hk, aFind]
      by_cases hk2 : k0 = k2
      · simp [hk2]
      · simp [hk2, ih]

/-- Claim C9: tag operations on any name in the reserved internal namespace
(prefixed by `_dd.` or among the dedicated error tags) leave the span's tag
map unchanged, and such a name is invisible to `lookup_tag`; in particular a
`set_tag` on a reserved name followed by `lookup_tag` yields nothing and no
other tag is affected. -/
theorem reserved_tag_operations_noop (span : SpanData) (name value : String)
    (h : is_internal name = true) :
    set_tag span name value = span ∧
    remove_tag span name = span ∧
    lookup_tag span name = none ∧
    lookup_tag (set_tag span name value) name = none ∧
    (∀ other : String, lookup_tag (set_tag span name value) other = lookup_tag span other) := by
  refine ⟨?_, ?_, ?_, ?_, ?_⟩ <;> simp [set_tag, remove_tag, lookup_tag, h]

theorem reserved_tag_operations_noop_witness :
    is_internal "_dd.internal" = true ∧
    set_tag (spanNamed "a") "_dd.internal" "x" = spanNamed "a" ∧
    lookup_tag (set_tag (spanNamed "a") "_dd.internal" "x") "_dd.internal" = none := by
  have h := reserved_tag_operations_noop (spanNamed "a") "_dd.internal" "x" (by decide)
  exact ⟨by decide, h.1, h.2.2.2.1⟩

/-- Claim C10: `set_error false` clears the error flag and erases the
`error.message` and `error.type` tags while leaving `error.stack` (also when
previously set via `set_error_stack`) and every other tag untouched;
`set_error true` removes none of the three error tags. -/
theorem set_error_false_clears_error_tags (span : SpanData) (stack : String) :
    (set_error span false).error = false ∧
    aFind (set_error span false).tags "error.message" = none ∧
    aFind (set_error span false).tags "error.type" = none ∧
    aFind (set_error span false).tags "error.stack" = aFind span.tags "error.stack" ∧
    aFind (set_error (set_error_stack span stack) false).tags "error.stack" = some stack ∧
    (∀ k : String, k ≠ "error.message" → k ≠ "error.type" →
      aFind (set_error span false).tags k = aFind span.tags k) ∧
    set_error span true = { span with error := true } := by
  refine ⟨rfl, ?_, ?_, ?_, ?_, ?_, rfl⟩
  · show aFind (aErase (aErase span.tags "error.message") "error.type") "error.message" = none
    rw [aFind_aErase_ne _ _ _ (by decide), aFind_aErase_self]
  · exact aFind_aErase_self _ _
  · show aFind (aErase (aErase span.tags "error.message") "error.type") "error.stack" =
      aFind span.tags "error.stack"
    rw [aFind_aErase_ne _ _ _ (by decide), aFind_aErase_ne _ _ _ (by decide)]
  · show aFind (aErase (aErase (aInsert span.tags "error.stack" stack) "error.message")
      "error.type") "error.stack" = some stack
    rw [aFind_aErase_ne _ _ _ (by decide), aFind_aErase_ne _ _ _ (by decide),
      aFind_aInsert_self]
  · intro k h1 h2
    show aFind (aErase (aErase span.tags "error.message") "error.type") k = aFind span.tags k
    rw [aFind_aErase_ne _ _ _ h2, aFind_aErase_ne _ _ _ h1]

theorem set_error_false_clears_error_tags_witness :
    ("x" : String) ≠ "error.message" ∧ ("x" : String) ≠ "error.type" ∧
    aFind (set_error (set_error_stack (spanNamed "b") "trace") false).tags "error.stack" =
      some "trace" ∧
    aFind (set_error (spanNamed "b") false).tags "x" = aFind (spanNamed "b").tags "x" := by
  have h := set_error_false_clears_error_tags (spanNamed "b") "trace"
  exact ⟨by decide, by decide, h.2.2.2.2.1, h.2.2.2.2.2.1 "x" (by decide) (by decide)⟩

/-- Claim C3: after `override_sampling_priority`, and after
`make_sampling_decision_if_null` on a segment that has no decision yet
(whether reached from injection or from finalization), the trace-tag map
holds `_dd.p.dm` exactly when the (now existing) decision's priority is
positive, and then its value is `"-"` followed by the decimal mechanism. -/
theorem decision_maker_tag_invariant (seg : TraceSegment) (priority : Int)
    (trace_decide : SpanData → SamplingDecision) :
    dm_invariant (override_sampling_priority seg priority) ∧
    (seg.sampling_decision = none →
      dm_invariant (make_sampling_decision_if_null trace_decide seg)) := by
  constructor
  · by_cases h : priority ≤ 0
    · simp only [dm_invariant, override_sampling_priority, update_decision_maker_trace_tag,
        if_pos h]
      have : ¬ (0 : Int) < priority := by omega
      simp [this, aFind_aErase_self]
    · simp only [dm_invariant, override_sampling_priority, update_decision_maker_trace_tag,
        if_neg h]
      have : (0 : Int) < priority := by omega
      simp [this, aFind_aInsert_self]
  · intro hnone
    simp only [make_sampling_decision_if_null, hnone]
    set d := trace_decide (seg.spans.headD SpanData.empty) with hd
    by_cases h : d.priority ≤ 0
    · simp only [dm_invariant, update_decision_maker_trace_tag, if_pos h]
      have : ¬ (0 : Int) < d.priority := by omega
      simp [this, aFind_aErase_self]
    · simp only [dm_invariant, update_decision_maker_trace_tag, if_neg h]
      have : (0 : Int) < d.priority := by omega
      simp [this, aFind_aInsert_self]

theorem decision_maker_tag_invariant_witness :
    segNoDecision.sampling_decision = none ∧
    dm_invariant (override_sampling_priority segNoDecision 2) ∧
    dm_invariant (make_sampling_decision_if_null (fun _ => SamplingDecision.default)
      segNoDecision) := by
  have h := decision_maker_tag_invariant segNoDecision 2 (fun _ => SamplingDecision.default)
  exact ⟨rfl, h.1, h.2 rfl⟩

/-- Claim C8: on Datadog-style injection, an encoded trace-tag string longer
than the configured byte limit suppresses the `x-datadog-tags` header and
sets `_dd.propagation_error = "inject_max_size"` on the local root; an
in-limit, non-empty encoding is written verbatim and this step adds no
propagation-error tag. -/
theorem datadog_inject_tags_size_limit (writer : Dict) (span : SpanData)
    (priority : Int) (seg_origin : Option String) (trace_tags : Dict)
    (maxSize : Nat) (root_tags : Dict) :
    ((encode_tags trace_tags).length > maxSize →
      (inject_datadog writer span priority seg_origin trace_tags maxSize root_tags).2 =
        aInsert root_tags "_dd.propagation_error" "inject_max_size" ∧
      aFind (inject_datadog writer span priority seg_origin trace_tags maxSize root_tags).1
        "x-datadog-tags" = aFind writer "x-datadog-tags") ∧
    ((encode_tags trace_tags).length ≤ maxSize → encode_tags trace_tags ≠ [] →
      aFind (inject_datadog writer span priority seg_origin trace_tags maxSize root_tags).1
        "x-datadog-tags" = some (String.mk (encode_tags trace_tags)) ∧
      (inject_datadog writer span priority seg_origin trace_tags maxSize root_tags).2 =
        root_tags) := by
  constructor
  · intro h
    constructor
    · simp only [inject_datadog, inject_trace_tags, if_pos h]
    · simp only [inject_datadog, inject_trace_tags, if_pos h]
      cases seg_origin <;>
        simp [aFind_aInsert_ne _ _ _ _
            (by decide : ("x-datadog-tags" : String) ≠ "x-datadog-origin"),
          aFind_aInsert_ne _ _ _ _
            (by decide : ("x-datadog-tags" : String) ≠ "x-datadog-sampling-priority"),
          aFind_aInsert_ne _ _ _ _
            (by decide : ("x-datadog-tags" : String) ≠ "x-datadog-parent-id"),
          aFind_aInsert_ne _ _ _ _
            (by decide : ("x-datadog-tags" : String) ≠ "x-datadog-trace-id")]
  · intro h hne
    have hnot : ¬ (encode_tags trace_tags).length > maxSize := by omega
    constructor
    · simp only [inject_datadog, inject_trace_tags, if_neg hnot, if_pos hne]
      exact aFind_aInsert_self _ _ _
    · simp only [inject_datadog, inject_trace_tags, if_neg hnot, if_pos hne]

theorem datadog_inject_tags_size_limit_witness :
    (encode_tags [("_dd.p.dm", "-4")]).length > 5 ∧
    (inject_datadog [] (spanNamed "c") 1 none [("_dd.p.dm", "-4")] 5 []).2 =
      aInsert [] "_dd.propagation_error" "inject_max_size" ∧
    (encode_tags [("_dd.p.dm", "-4")]).length ≤ 512 ∧
    aFind (inject_datadog [] (spanNamed "c") 1 none [("_dd.p.dm", "-4")] 512 []).1
      "x-datadog-tags" = some (String.mk (encode_tags [("_dd.p.dm", "-4")])) := by
  have h1 := (datadog_inject_tags_size_limit [] (spanNamed "c") 1 none [("_dd.p.dm", "-4")]
    5 []).1 (by decide)
  have h2 := (datadog_inject_tags_size_limit [] (spanNamed "c") 1 none [("_dd.p.dm", "-4")]
    512 []).2 (by decide) (by decide)
  exact ⟨by decide, h1.1, by decide, h2.1⟩

theorem splitFirst_ne_nil (sep : Char) (l a b : List Char)
    (h : splitFirst sep l = some (a, b)) : l ≠ [] := by
  intro hnil
  subst hnil
  simp [splitFirst] at h

/-- Claim C4: whenever the `traceparent` value fails — pattern mismatch,
version `ff`, all-zero trace ID, or all-zero parent ID — W3C extraction
yields an empty context (no trace ID, parent ID, sampling priority or trace
tags) and records exactly the corresponding single value of the
`_dd.w3c_extraction_error` span tag, as classified by `w3c_error_spec`. -/
theorem w3c_extraction_error_empty_context (headers span_tags : Dict) (tp e : String)
    (h1 : aFind headers "traceparent" = some tp)
    (h2 : w3c_error_spec (strip tp.data) = some e) :
    (extract_w3c headers span_tags).1.trace_id = none ∧
    (extract_w3c headers span_tags).1.parent_id = none ∧
    (extract_w3c headers span_tags).1.sampling_priority = none ∧
    (extract_w3c headers span_tags).1.trace_tags = [] ∧
    (extract_w3c headers span_tags).1 = ExtractedData.empty ∧
    (extract_w3c headers span_tags).2 = aInsert span_tags "_dd.w3c_extraction_error" e := by
  have key : (extract_traceparent headers ExtractedData.empty).2 = some e := by
    simp only [extract_traceparent, h1]
    simp only [w3c_error_spec] at h2
    cases hm : matchTraceparent (strip tp.data) with
    | none =>
      simp only [hm] at h2 ⊢
      simpa using h2
    | some m =>
      simp only [hm] at h2 ⊢
      by_cases hv : m.version = ['f', 'f']
      · rw [if_pos hv] at h2 ⊢
        simpa using h2
      · rw [if_neg hv] at h2 ⊢
        by_cases hz : (m.traceIdHex.all fun c => c = '0') = true
        · rw [if_pos hz] at h2 ⊢
          simpa using h2
        · rw [if_neg hz] at h2 ⊢
          by_cases hp : (parse_uint64 16 m.parentIdHex).getD 0 = 0
          · rw [if_pos hp] at h2 ⊢
            simpa using h2
          · rw [if_neg hp] at h2
            exact absurd h2 (by simp)
  have hw : extract_w3c headers span_tags =
      (ExtractedData.empty, aInsert span_tags "_dd.w3c_extraction_error" e) := by
    simp only [extract_w3c, key]
  rw [hw]
  exact ⟨rfl, rfl, rfl, rfl, rfl, rfl⟩

theorem w3c_extraction_error_empty_context_witness :
    aFind [("traceparent", "ff-4bf92f3577b34da6a3ce929d0e0e4736-00f067aa0ba902b7-01")]
      "traceparent" = some "ff-4bf92f3577b34da6a3ce929d0e0e4736-00f067aa0ba902b7-01" ∧
    w3c_error_spec
      (strip ("ff-4bf92f3577b34da6a3ce929d0e0e4736-00f067aa0ba902b7-01" : String).data) =
      some "invalid_version" ∧
    (extract_w3c [("traceparent", "ff-4bf92f3577b34da6a3ce929d0e0e4736-00f067aa0ba902b7-01")]
      []).1 = ExtractedData.empty ∧
    (extract_w3c [("traceparent", "ff-4bf92f3577b34da6a3ce929d0e0e4736-00f067aa0ba902b7-01")]
      []).2 = aInsert [] "_dd.w3c_extraction_error" "invalid_version" := by
  have h := w3c_extraction_error_empty_context
    [("traceparent", "ff-4bf92f3577b34da6a3ce929d0e0e4736-00f067aa0ba902b7-01")] []
    "ff-4bf92f3577b34da6a3ce929d0e0e4736-00f067aa0ba902b7-01" "invalid_version"
    (by decide) (by decide)
  exact ⟨by decide, by decide, h.2.2.2.2.1, h.2.2.2.2.2⟩

/-- Claim C5: a decoded `x-datadog-tags` pair with key `_dd.p.tid` whose
value is not exactly 16 hex characters sets
`_dd.propagation_error = "malformed_tid <value>"` and is not added to the
extracted trace tags; a valid value, when the lower-half trace ID was
already extracted, sets the high 64 bits of the extracted trace ID (so
`x-datadog-trace-id: 1` with `_dd.p.tid=640cfd8d00000000` yields
`trace_id.high = 0x640cfd8d00000000`, `trace_id.low = 1`); pairs whose key
does not start with `_dd.p.` are dropped without any error tag. -/
theorem datadog_tid_trace_tag_handling :
    (∀ (res : ExtractedData) (tags : Dict) (value : String),
      parse_trace_id_high value = none →
      handleTagPair (res, tags) ("_dd.p.tid", value) =
        (res, aInsert tags "_dd.propagation_error" ("malformed_tid " ++ value))) ∧
    (∀ (res : ExtractedData) (tags : Dict) (value : String) (high : Nat) (t : TraceID),
      parse_trace_id_high value = some high →
      res.trace_id = some t →
      handleTagPair (res, tags) ("_dd.p.tid", value) =
        ({ res with
            trace_id := some { t with high := high }
            trace_tags := res.trace_tags ++ [("_dd.p.tid", value)] }, tags)) ∧
    (∀ (res : ExtractedData) (tags : Dict) (key value : String),
      startsWithStr key "_dd.p." = false →
      handleTagPair (res, tags) (key, value) = (res, tags)) ∧
    (extract_datadog_ctx [("x-datadog-trace-id", "1"),
        ("x-datadog-tags", "_dd.p.tid=640cfd8d00000000")]).trace_id =
      some { low := 1, high := 0x640cfd8d00000000 } := by
  refine ⟨?_, ?_, ?_, by decide⟩
  · intro res tags value h
    simp [handleTagPair, h, (by decide : startsWithStr "_dd.p.tid" "_dd.p." = true)]
  · intro res tags value high t h ht
    simp [handleTagPair, h, ht, (by decide : startsWithStr "_dd.p.tid" "_dd.p." = true)]
  · intro res tags key value h
    simp [handleTagPair, h]

theorem datadog_tid_trace_tag_handling_witness :
    parse_trace_id_high "xyz" = none ∧
    handleTagPair (ExtractedData.empty, []) ("_dd.p.tid", "xyz") =
      (ExtractedData.empty, aInsert [] "_dd.propagation_error" "malformed_tid xyz") ∧
    startsWithStr "other.key" "_dd.p." = false ∧
    handleTagPair (ExtractedData.empty, []) ("other.key", "v") = (ExtractedData.empty, []) := by
  have h := datadog_tid_trace_tag_handling
  exact ⟨by decide, h.1 ExtractedData.empty [] "xyz" (by decide), by decide,
    h.2.2.1 ExtractedData.empty [] "other.key" "v" (by decide)⟩

/-- Claim C6: a `tracestate` dd-entry pair `s:<p>` with an integer value `p`
sets the extracted sampling priority to `p` exactly when no priority was
parsed from `traceparent` or the two agree in sign (both positive or both
non-positive); otherwise the traceparent priority is kept; in particular
traceparent flags `01` combined with `dd=s:2` yields priority 2 (along with
origin `rum`, the `_dd.p.dm` trace tag, and the preserved foreign
tracestate of specification scenario 2). -/
theorem tracestate_sampling_priority_rule :
    (∀ (res : ExtractedData) (pair v : List Char) (p : Int),
      splitFirst ':' pair = some (['s'], v) →
      parse_int 10 v = some p →
      ((res.sampling_priority = none →
          (processDDPair res pair).sampling_priority = some p) ∧
       (∀ q : Int, res.sampling_priority = some q → ((0 < q) ↔ (0 < p)) →
          (processDDPair res pair).sampling_priority = some p) ∧
       (∀ q : Int, res.sampling_priority = some q → ¬ ((0 < q) ↔ (0 < p)) →
          (processDDPair res pair).sampling_priority = some q))) ∧
    ((extract_w3c [("traceparent", "00-4bf92f3577b34da6a3ce929d0e0e4736-00f067aa0ba902b7-01"),
        ("tracestate", "dd=s:2;o:rum;t.dm:-4,vendor=other")] []).1.sampling_priority =
          some 2 ∧
     (extract_w3c [("traceparent", "00-4bf92f3577b34da6a3ce929d0e0e4736-00f067aa0ba902b7-01"),
        ("tracestate", "dd=s:2;o:rum;t.dm:-4,vendor=other")] []).1.origin = some "rum" ∧
     aFind (extract_w3c [("traceparent",
        "00-4bf92f3577b34da6a3ce929d0e0e4736-00f067aa0ba902b7-01"),
        ("tracestate", "dd=s:2;o:rum;t.dm:-4,vendor=other")] []).1.trace_tags "_dd.p.dm" =
          some "-4" ∧
     (extract_w3c [("traceparent", "00-4bf92f3577b34da6a3ce929d0e0e4736-00f067aa0ba902b7-01"),
        ("tracestate", "dd=s:2;o:rum;t.dm:-4,vendor=other")] []).1.additional_w3c_tracestate =
          some "vendor=other") := by
  constructor
  · intro res pair v p hsplit hp
    have hne : pair ≠ [] := splitFirst_ne_nil ':' pair ['s'] v hsplit
    refine ⟨?_, ?_, ?_⟩
    · intro hnone
      simp [processDDPair, hne, hsplit, hp, hnone]
    · intro q hq hiff
      have : decide (0 < q) = decide (0 < p) := by
        simp [decide_eq_decide, hiff]
      simp [processDDPair, hne, hsplit, hp, hq, this]
    · intro q hq hiff
      have : ¬ decide (0 < q) = decide (0 < p) := by
        simp [decide_eq_decide]
        intro h
        exact absurd h hiff
      simp [processDDPair, hne, hsplit, hp, hq, this]
  · exact ⟨by decide, by decide, by decide, by decide⟩

theorem tracestate_sampling_priority_rule_witness :
    splitFirst ':' ("s:2".data) = some (['s'], ['2']) ∧
    parse_int 10 ['2'] = some 2 ∧
    (processDDPair { ExtractedData.empty with sampling_priority := some 1 }
      ("s:2".data)).sampling_priority = some 2 ∧
    (processDDPair { ExtractedData.empty with sampling_priority := some 1 }
      ("s:-1".data)).sampling_priority = some 1 := by
  have h := tracestate_sampling_priority_rule
  refine ⟨by decide, by decide, ?_, ?_⟩
  · exact (h.1 { ExtractedData.empty with sampling_priority := some 1 }
      ("s:2".data) ['2'] 2 (by decide) (by decide)).2.1 1 (by decide) (by decide)
  · exact (h.1 { ExtractedData.empty with sampling_priority := some 1 }
      ("s:-1".data) ['-', '1'] (-1) (by decide) (by decide)).2.2 1 (by decide) (by decide)

theorem processDDPair_preserves (res : ExtractedData) (pair : List Char) :
    (processDDPair res pair).trace_id = res.trace_id ∧
    (processDDPair res pair).parent_id = res.parent_id ∧
    (processDDPair res pair).full_w3c_trace_id_hex = res.full_w3c_trace_id_hex := by
  by_cases h0 : pair = []
  · simp [processDDPair, h0]
  · simp only [processDDPair, if_neg h0]
    cases hsf : splitFirst ':' pair with
    | none => simp
    | some kv =>
      obtain ⟨key, value⟩ := kv
      by_cases h1 : key = ['o']
      · simp [h1]
      · simp only [if_neg h1]
        by_cases h2 : key = ['s']
        · simp only [if_pos h2]
          cases parse_int 10 value with
          | none => simp
          | some p =>
            cases res.sampling_priority with
            | none => simp
            | some q =>
              by_cases h3 : decide (0 < q) = decide (0 < p) <;> simp [h3]
        · simp only [if_neg h2]
          by_cases h4 : List.isPrefixOf ['t', '.'] key = true
          · simp [h4]
          · simp only [h4]
            cases res.additional_datadog_w3c_tracestate with
            | none => simp
            | some s => simp

theorem foldl_processDDPair_preserves (l : List (List Char)) (res : ExtractedData) :
    (l.foldl processDDPair res).trace_id = res.trace_id ∧
    (l.foldl processDDPair res).parent_id = res.parent_id ∧
    (l.foldl processDDPair res).full_w3c_trace_id_hex = res.full_w3c_trace_id_hex := by
  induction l generalizing res with
  | nil => exact ⟨rfl, rfl, rfl⟩
  | cons hd tl ih =>
    simp only [List.foldl_cons]
    obtain ⟨a1, a2, a3⟩ := processDDPair_preserves res hd
    obtain ⟨b1, b2, b3⟩ := ih (processDDPair res hd)
    exact ⟨b1.trans a1, b2.trans a2, b3.trans a3⟩

theorem extract_tracestate_preserves (headers : Dict) (res : ExtractedData) :
    (extract_tracestate headers res).trace_id = res.trace_id ∧
    (extract_tracestate headers res).parent_id = res.parent_id ∧
    (extract_tracestate headers res).full_w3c_trace_id_hex = res.full_w3c_trace_id_hex := by
  simp only [extract_tracestate]
  cases aFind headers "tracestate" with
  | none => exact ⟨rfl, rfl, rfl⟩
  | some raw =>
    simp only
    cases parse_tracestate (strip raw.data) with
    | none =>
      by_cases h : strip raw.data = [] <;> simp [h]
    | some p =>
      obtain ⟨dv, other⟩ := p
      simp only [parse_datadog_tracestate]
      by_cases h : other = []
      · simp only [h, if_pos rfl]
        exact foldl_processDDPair_preserves _ _
      · simp only [if_neg h]
        obtain ⟨a1, a2, a3⟩ := foldl_processDDPair_preserves (splitChar ';' dv)
          { res with additional_w3c_tracestate := some (String.mk other) }
        exact ⟨a1, a2, a3⟩

/-- Claim C1 counterexample: the claim asserts that for every header map
whose `traceparent` matches the pattern (version not `ff`, non-zero IDs),
the extracted `sampling_priority` equals `flags & 1`; but with an
accompanying `tracestate` of `dd=s:2` the extractor applies the dd-entry
priority (the flags give 1, the result is 2), so the claim as universally
stated is false at this input. -/
theorem w3c_extraction_priority_counterexample :
    (matchTraceparent
      (strip ("00-4bf92f3577b34da6a3ce929d0e0e4736-00f067aa0ba902b7-01" : String).data)).isSome
      = true ∧
    (∀ m, matchTraceparent
        (strip ("00-4bf92f3577b34da6a3ce929d0e0e4736-00f067aa0ba902b7-01" : String).data) =
        some m →
      m.version ≠ ['f', 'f'] ∧ ¬ (m.traceIdHex.all fun c => c = '0') = true ∧
      (parse_uint64 16 m.parentIdHex).getD 0 ≠ 0 ∧
      (parse_uint64 16 m.flagsHex).getD 0 % 2 = 1) ∧
    (extract_w3c [("traceparent", "00-4bf92f3577b34da6a3ce929d0e0e4736-00f067aa0ba902b7-01"),
        ("tracestate", "dd=s:2")] []).1.sampling_priority = some 2 ∧
    (extract_w3c [("traceparent", "00-4bf92f3577b34da6a3ce929d0e0e4736-00f067aa0ba902b7-01"),
        ("tracestate", "dd=s:2")] []).1.sampling_priority ≠ some 1 := by
  refine ⟨by decide, ?_, by decide, by decide⟩
  intro m hm
  have : m = { version := ['0', '0']
               traceIdHex := "4bf92f3577b34da6a3ce929d0e0e4736".data
               traceIdLowHex := "a3ce929d0e0e4736".data
               parentIdHex := "00f067aa0ba902b7".data
               flagsHex := ['0', '1'] } := by
    have h2 := hm.symm.trans (by decide :
      matchTraceparent
        (strip ("00-4bf92f3577b34da6a3ce929d0e0e4736-00f067aa0ba902b7-01" : String).data) =
        some { version := ['0', '0']
               traceIdHex := "4bf92f3577b34da6a3ce929d0e0e4736".data
               traceIdLowHex := "a3ce929d0e0e4736".data
               parentIdHex := "00f067aa0ba902b7".data
               flagsHex := ['0', '1'] })
    exact Option.some.inj h2
  subst this
  refine ⟨by decide, by decide, by decide, by decide⟩

/-- Claim C1 (amended): for every header map whose `traceparent` matches the
pattern with version not `ff`, non-zero trace ID and non-zero parent ID, W3C
extraction (completed by the spec-modelled high-half step) preserves the
exact 32-hex trace ID in `full_w3c_trace_id_hex`, sets `trace_id.low` and
`trace_id.high` to the lower and upper 64 bits of that hex, and sets
`parent_id` to the parsed 16-hex span ID; `sampling_priority` equals
`flags & 1` provided no `tracestate` header is present (a `tracestate`
dd-entry may override it, see claim C6). The concrete scenario-1 conjunct
instantiates this at the specification's example `traceparent`. -/
theorem w3c_traceparent_extraction_amended (headers span_tags : Dict) (tp : String)
    (m : TraceparentFields)
    (h1 : aFind headers "traceparent" = some tp)
    (h2 : matchTraceparent (strip tp.data) = some m)
    (h3 : m.version ≠ ['f', 'f'])
    (h4 : ¬ (m.traceIdHex.all fun c => c = '0') = true)
    (h5 : (parse_uint64 16 m.parentIdHex).getD 0 ≠ 0) :
    ((complete_trace_id_high (extract_w3c headers span_tags).1).full_w3c_trace_id_hex =
        some (String.mk m.traceIdHex) ∧
     (complete_trace_id_high (extract_w3c headers span_tags).1).trace_id =
        some { low := (parse_uint64 16 m.traceIdLowHex).getD 0
               high := (parse_uint64 16 (m.traceIdHex.take 16)).getD 0 } ∧
     (complete_trace_id_high (extract_w3c headers span_tags).1).parent_id =
        some ((parse_uint64 16 m.parentIdHex).getD 0) ∧
     (aFind headers "tracestate" = none →
       (complete_trace_id_high (extract_w3c headers span_tags).1).sampling_priority =
         some (((parse_uint64 16 m.flagsHex).getD 0 % 2 : Nat) : Int))) ∧
    ((complete_trace_id_high (extract_w3c
        [("traceparent", "00-4bf92f3577b34da6a3ce929d0e0e4736-00f067aa0ba902b7-01")]
        []).1).trace_id = some { low := 0xa3ce929d0e0e4736, high := 0x4bf92f3577b34da6 } ∧
     (complete_trace_id_high (extract_w3c
        [("traceparent", "00-4bf92f3577b34da6a3ce929d0e0e4736-00f067aa0ba902b7-01")]
        []).1).parent_id = some 0x00f067aa0ba902b7 ∧
     (complete_trace_id_high (extract_w3c
        [("traceparent", "00-4bf92f3577b34da6a3ce929d0e0e4736-00f067aa0ba902b7-01")]
        []).1).sampling_priority = some 1 ∧
     (complete_trace_id_high (extract_w3c
        [("traceparent", "00-4bf92f3577b34da6a3ce929d0e0e4736-00f067aa0ba902b7-01")]
        []).1).full_w3c_trace_id_hex = some "4bf92f3577b34da6a3ce929d0e0e4736") := by
  have hstep : extract_traceparent headers ExtractedData.empty =
      ({ ExtractedData.empty with
          full_w3c_trace_id_hex := some (String.mk m.traceIdHex)
          trace_id := some (TraceID.ofLow ((parse_uint64 16 m.traceIdLowHex).getD 0))
          parent_id := some ((parse_uint64 16 m.parentIdHex).getD 0)
          sampling_priority :=
            some (((parse_uint64 16 m.flagsHex).getD 0 % 2 : Nat) : Int) }, none) := by
    simp only [extract_traceparent, h1, h2]
    rw [if_neg h3, if_neg h4, if_neg h5]
  have hw : (extract_w3c headers span_tags).1 =
      extract_tracestate headers (extract_traceparent headers ExtractedData.empty).1 := by
    simp only [extract_w3c, hstep]
  have hfull0 : (extract_traceparent headers ExtractedData.empty).1.full_w3c_trace_id_hex =
      some (String.mk m.traceIdHex) := by rw [hstep]
  have htid0 : (extract_traceparent headers ExtractedData.empty).1.trace_id =
      some (TraceID.ofLow ((parse_uint64 16 m.traceIdLowHex).getD 0)) := by rw [hstep]
  have hpar0 : (extract_traceparent headers ExtractedData.empty).1.parent_id =
      some ((parse_uint64 16 m.parentIdHex).getD 0) := by rw [hstep]
  have hpri0 : (extract_traceparent headers ExtractedData.empty).1.sampling_priority =
      some (((parse_uint64 16 m.flagsHex).getD 0 % 2 : Nat) : Int) := by rw [hstep]
  obtain ⟨p1, p2, p3⟩ := extract_tracestate_preserves headers
    (extract_traceparent headers ExtractedData.empty).1
  have hA : (extract_w3c headers span_tags).1.trace_id =
      some (TraceID.ofLow ((parse_uint64 16 m.traceIdLowHex).getD 0)) := by
    rw [hw, p1, htid0]
  have hB : (extract_w3c headers span_tags).1.full_w3c_trace_id_hex =
      some (String.mk m.traceIdHex) := by
    rw [hw, p3, hfull0]
  constructor
  · refine ⟨?_, ?_, ?_, ?_⟩
    · simp only [complete_trace_id_high, hA, hB]
    · simp only [complete_trace_id_high, hA, hB]
      simp [TraceID.ofLow]
    · simp only [complete_trace_id_high, hA, hB]
      rw [hw, p2, hpar0]
    · intro hts
      simp only [complete_trace_id_high, hA, hB]
      rw [hw]
      rw [show extract_tracestate headers (extract_traceparent headers ExtractedData.empty).1 =
          (extract_traceparent headers ExtractedData.empty).1 by
        simp only [extract_tracestate, hts]]
      rw [hpri0]
  · exact ⟨by decide, by decide, by decide, by decide⟩

theorem w3c_traceparent_extraction_amended_witness :
    aFind [("traceparent", "00-4bf92f3577b34da6a3ce929d0e0e4736-00f067aa0ba902b7-01")]
      "traceparent" = some "00-4bf92f3577b34da6a3ce929d0e0e4736-00f067aa0ba902b7-01" ∧
    (complete_trace_id_high (extract_w3c
      [("traceparent", "00-4bf92f3577b34da6a3ce929d0e0e4736-00f067aa0ba902b7-01")]
      []).1).trace_id = some { low := 0xa3ce929d0e0e4736, high := 0x4bf92f3577b34da6 } := by
  have h := w3c_traceparent_extraction_amended
    [("traceparent", "00-4bf92f3577b34da6a3ce929d0e0e4736-00f067aa0ba902b7-01")] []
    "00-4bf92f3577b34da6a3ce929d0e0e4736-00f067aa0ba902b7-01"
    { version := ['0', '0']
      traceIdHex := "4bf92f3577b34da6a3ce929d0e0e4736".data
      traceIdLowHex := "a3ce929d0e0e4736".data
      parentIdHex := "00f067aa0ba902b7".data
      flagsHex := ['0', '1'] }
    (by decide) (by decide) (by decide) (by decide) (by decide)
  exact ⟨by decide, h.2.1⟩

/-- Claim C2: merging returns the empty context when no enabled style's
context carries a trace ID; otherwise the first such style is primary, and
when the primary is not W3C but a W3C context with the same trace ID exists
and the parent IDs differ, the merge keeps W3C's non-zero
`datadog_w3c_parent_id` if present, else records the hex-padded parent of a
matching Datadog context, and in either case overwrites `parent_id` with
W3C's; the closed conjunct is the specification's scenario 3. -/
theorem context_merge_parent_reconciliation :
    (∀ (enabled : List PropagationStyle)
       (contexts : List (PropagationStyle × ExtractedData)),
      (first_style_with_trace_id enabled contexts = none →
        merge_contexts enabled contexts = ExtractedData.empty) ∧
      (∀ (st : PropagationStyle) (primary w3c : ExtractedData),
        first_style_with_trace_id enabled contexts = some st →
        ctxFind contexts st = some primary →
        st ≠ PropagationStyle.W3C →
        ctxFind contexts PropagationStyle.W3C = some w3c →
        w3c.trace_id = primary.trace_id →
        primary.parent_id ≠ w3c.parent_id →
        (merge_contexts enabled contexts).parent_id = w3c.parent_id ∧
        (∀ p : String, w3c.datadog_w3c_parent_id = some p → p ≠ "0000000000000000" →
          (merge_contexts enabled contexts).datadog_w3c_parent_id = some p) ∧
        ((w3c.datadog_w3c_parent_id = none ∨
            w3c.datadog_w3c_parent_id = some "0000000000000000") →
          ∀ (dd : ExtractedData) (pid : Nat),
            ctxFind contexts PropagationStyle.DATADOG = some dd →
            dd.trace_id = primary.trace_id →
            dd.parent_id = some pid →
            (merge_contexts enabled contexts).datadog_w3c_parent_id =
              some (hex_padded pid)))) ∧
    ((merge_contexts [PropagationStyle.DATADOG, PropagationStyle.W3C]
        [(PropagationStyle.DATADOG, extract_datadog_ctx
            [("x-datadog-trace-id", "11803532876627986230"),
             ("x-datadog-parent-id", "67667974448284343"),
             ("x-datadog-sampling-priority", "1")]),
         (PropagationStyle.W3C, (extract_w3c
            [("traceparent", "00-4bf92f3577b34da6a3ce929d0e0e4736-00f067aa0ba902b8-01")]
            []).1)]).trace_id = some { low := 11803532876627986230, high := 0 } ∧
     (merge_contexts [PropagationStyle.DATADOG, PropagationStyle.W3C]
        [(PropagationStyle.DATADOG, extract_datadog_ctx
            [("x-datadog-trace-id", "11803532876627986230"),
             ("x-datadog-parent-id", "67667974448284343"),
             ("x-datadog-sampling-priority", "1")]),
         (PropagationStyle.W3C, (extract_w3c
            [("traceparent", "00-4bf92f3577b34da6a3ce929d0e0e4736-00f067aa0ba902b8-01")]
            []).1)]).parent_id = some 0x00f067aa0ba902b8 ∧
     (merge_contexts [PropagationStyle.DATADOG, PropagationStyle.W3C]
        [(PropagationStyle.DATADOG, extract_datadog_ctx
            [("x-datadog-trace-id", "11803532876627986230"),
             ("x-datadog-parent-id", "67667974448284343"),
             ("x-datadog-sampling-priority", "1")]),
         (PropagationStyle.W3C, (extract_w3c
            [("traceparent", "00-4bf92f3577b34da6a3ce929d0e0e4736-00f067aa0ba902b8-01")]
            []).1)]).datadog_w3c_parent_id = some (hex_padded 67667974448284343) ∧
     hex_padded 67667974448284343 = "00f067aa0ba902b7") := by
  constructor
  · intro enabled contexts
    constructor
    · intro h
      simp [merge_contexts, h]
    · intro st primary w3c hfirst hst hstw hw3c htid hpar
      have hm : merge_contexts enabled contexts = merge st contexts := by
        simp [merge_contexts, hfirst]
      refine ⟨?_, ?_, ?_⟩
      · rw [hm]
        simp [merge, hst, hw3c, htid, hpar]
      · intro p hp hpne
        rw [hm]
        simp [merge, hst, hw3c, htid, hpar, hp, hpne]
      · intro hzero dd pid hdd hddtid hddpar
        rw [hm]
        rcases hzero with h | h <;>
          simp [merge, hst, hw3c, htid, hpar, h, hdd, hddtid, hddpar]
  · exact ⟨by decide, by decide, by decide, by decide⟩

theorem context_merge_parent_reconciliation_witness :
    first_style_with_trace_id [PropagationStyle.DATADOG]
      [(PropagationStyle.DATADOG, { ExtractedData.empty with
          trace_id := some (TraceID.ofLow 9), parent_id := some 5 }),
       (PropagationStyle.W3C, { ExtractedData.empty with
          trace_id := some (TraceID.ofLow 9), parent_id := some 6 })] =
      some PropagationStyle.DATADOG ∧
    (merge_contexts [PropagationStyle.DATADOG]
      [(PropagationStyle.DATADOG, { ExtractedData.empty with
          trace_id := some (TraceID.ofLow 9), parent_id := some 5 }),
       (PropagationStyle.W3C, { ExtractedData.empty with
          trace_id := some (TraceID.ofLow 9), parent_id := some 6 })]).parent_id = some 6 ∧
    (merge_contexts [PropagationStyle.DATADOG]
      [(PropagationStyle.DATADOG, { ExtractedData.empty with
          trace_id := some (TraceID.ofLow 9), parent_id := some 5 }),
       (PropagationStyle.W3C, { ExtractedData.empty with
          trace_id := some (TraceID.ofLow 9), parent_id := some 6 })]).datadog_w3c_parent_id =
      some (hex_padded 5) := by
  have h := (context_merge_parent_reconciliation.1 [PropagationStyle.DATADOG]
    [(PropagationStyle.DATADOG, { ExtractedData.empty with
        trace_id := some (TraceID.ofLow 9), parent_id := some 5 }),
     (PropagationStyle.W3C, { ExtractedData.empty with
        trace_id := some (TraceID.ofLow 9), parent_id := some 6 })]).2
    PropagationStyle.DATADOG
    { ExtractedData.empty with trace_id := some (TraceID.ofLow 9), parent_id := some 5 }
    { ExtractedData.empty with trace_id := some (TraceID.ofLow 9), parent_id := some 6 }
    (by decide) (by decide) (by decide) (by decide) (by decide) (by decide)
  refine ⟨by decide, h.1, ?_⟩
  exact h.2.2 (Or.inl rfl)
    { ExtractedData.empty with trace_id := some (TraceID.ofLow 9), parent_id := some 5 }
    5 (by decide) (by decide) (by decide)

theorem make_decision_preserves (f : SpanData → SamplingDecision) (seg : TraceSegment) :
    (make_sampling_decision_if_null f seg).spans = seg.spans ∧
    (make_sampling_decision_if_null f seg).origin = seg.origin ∧
    (make_sampling_decision_if_null f seg).sampling_decision.isSome = true := by
  cases h : seg.sampling_decision <;> simp [make_sampling_decision_if_null, h]

theorem map_with_origin_none (l : List SpanData) : l.map (with_origin_tag none) = l := by
  induction l with
  | nil => rfl
  | cons a t ih => simp [with_origin_tag, ih]

theorem finalize_spans_length (span_sampler : SpanData → Option SamplingDecision)
    (seg : TraceSegment) (hne : seg.spans ≠ []) :
    (finalize_spans span_sampler seg).length = seg.spans.length := by
  cases hs : seg.spans with
  | nil => exact absurd hs hne
  | cons s0 rest =>
    by_cases hp : (seg.sampling_decision.getD SamplingDecision.default).priority ≤ 0 <;>
      cases horig : seg.origin <;>
      simp [finalize_spans, hs, hp, horig]

theorem finalize_spans_get_tail (span_sampler : SpanData → Option SamplingDecision)
    (seg : TraceSegment) (hne : seg.spans ≠ []) (i : Nat) (hi : 0 < i) :
    (finalize_spans span_sampler seg).get? i =
      (if (seg.sampling_decision.getD SamplingDecision.default).priority ≤ 0 then
        (seg.spans.get? i).map
          (fun s => with_origin_tag seg.origin (apply_span_sampling span_sampler s))
      else (seg.spans.get? i).map (with_origin_tag seg.origin)) := by
  cases hs : seg.spans with
  | nil => exact absurd hs hne
  | cons s0 rest =>
    cases i with
    | zero => omega
    | succ j =>
      by_cases hp : (seg.sampling_decision.getD SamplingDecision.default).priority ≤ 0 <;>
        cases horig : seg.origin <;>
        (simp [finalize_spans, hs, hp, horig, List.getElem?_map]
         try (cases hr : rest[j]? <;> simp [with_origin_tag, Function.comp]))

theorem finalize_spans_get_root (span_sampler : SpanData → Option SamplingDecision)
    (seg : TraceSegment) (hne : seg.spans ≠ []) :
    (finalize_spans span_sampler seg).get? 0 =
      some (with_origin_tag seg.origin
        (finalize_root_tags seg (seg.sampling_decision.getD SamplingDecision.default)
          (if (seg.sampling_decision.getD SamplingDecision.default).priority ≤ 0 then
            apply_span_sampling span_sampler (seg.spans.headD SpanData.empty)
          else seg.spans.headD SpanData.empty))) := by
  cases hs : seg.spans with
  | nil => exact absurd hs hne
  | cons s0 rest =>
    by_cases hp : (seg.sampling_decision.getD SamplingDecision.default).priority ≤ 0 <;>
      cases horig : seg.origin <;>
      simp [finalize_spans, finalize_root_tags, hs, hp, horig, with_origin_tag]

/-- Claim C7: the span sampler is consulted exactly when the decision's
priority is non-positive — every span of the batch passes through
`apply_span_sampling` in that case and is untouched by it otherwise (the
local root additionally receives the finalization tags of
`finalize_root_tags`, and every span the origin tag when the segment
carries one); a span whose rule matches with a keeping decision receives
the `_dd.span_sampling.mechanism` and `_dd.span_sampling.rule_rate` numeric
tags (plus `_dd.span_sampling.max_per_second` when the rule is limited),
a span with no matching rule is untouched, and the full span vector —
rescued and non-rescued spans alike — is handed to the collector in a
single send whose batch length equals the span count. -/
theorem span_sampler_finalization (trace_decide : SpanData → SamplingDecision)
    (span_sampler : SpanData → Option SamplingDecision) (seg : TraceSegment)
    (hlast : seg.num_finished + 1 = seg.spans.length) :
    (∀ span dec, span_sampler span = some dec → 0 < dec.priority →
      (aFind (apply_span_sampling span_sampler span).numeric_tags
          "_dd.span_sampling.mechanism" = some ((dec.mechanism.getD 0 : Int) : Rat) ∧
       aFind (apply_span_sampling span_sampler span).numeric_tags
          "_dd.span_sampling.rule_rate" = some (dec.configured_rate.getD 0) ∧
       (∀ mps, dec.limiter_max_per_second = some mps →
         aFind (apply_span_sampling span_sampler span).numeric_tags
            "_dd.span_sampling.max_per_second" = some mps))) ∧
    (∀ span, span_sampler span = none → apply_span_sampling span_sampler span = span) ∧
    (∃ batch, (span_finished trace_decide span_sampler seg).2 = some batch ∧
      batch.length = seg.spans.length ∧
      (((make_sampling_decision_if_null trace_decide
            { seg with num_finished := seg.num_finished + 1 }).sampling_decision.getD
          SamplingDecision.default).priority ≤ 0 →
        (∀ i, 0 < i →
          batch.get? i = (seg.spans.get? i).map
            (fun s => with_origin_tag seg.origin (apply_span_sampling span_sampler s))) ∧
        batch.get? 0 = some (with_origin_tag seg.origin
          (finalize_root_tags
            (make_sampling_decision_if_null trace_decide
              { seg with num_finished := seg.num_finished + 1 })
            ((make_sampling_decision_if_null trace_decide
                { seg with num_finished := seg.num_finished + 1 }).sampling_decision.getD
              SamplingDecision.default)
            (apply_span_sampling span_sampler (seg.spans.headD SpanData.empty))))) ∧
      (0 < ((make_sampling_decision_if_null trace_decide
            { seg with num_finished := seg.num_finished + 1 }).sampling_decision.getD
          SamplingDecision.default).priority →
        (∀ i, 0 < i →
          batch.get? i = (seg.spans.get? i).map (with_origin_tag seg.origin)) ∧
        batch.get? 0 = some (with_origin_tag seg.origin
          (finalize_root_tags
            (make_sampling_decision_if_null trace_decide
              { seg with num_finished := seg.num_finished + 1 })
            ((make_sampling_decision_if_null trace_decide
                { seg with num_finished := seg.num_finished + 1 }).sampling_decision.getD
              SamplingDecision.default)
            (seg.spans.headD SpanData.empty))))) := by
  refine ⟨?_, ?_, ?_⟩
  · intro span dec h hp
    have hnp : ¬ dec.priority ≤ 0 := by omega
    cases hl : dec.limiter_max_per_second with
    | none =>
      refine ⟨?_, ?_, ?_⟩
      · simp only [apply_span_sampling, h, if_neg hnp, hl]
        rw [aFind_aInsert_ne _ _ _ _ (by decide), aFind_aInsert_self]
      · simp only [apply_span_sampling, h, if_neg hnp, hl]
        rw [aFind_aInsert_self]
      · intro mps hmps
        exact absurd hmps (by simp)
    | some mlim =>
      refine ⟨?_, ?_, ?_⟩
      · simp only [apply_span_sampling, h, if_neg hnp, hl]
        rw [aFind_aInsert_ne _ _ _ _ (by decide), aFind_aInsert_ne _ _ _ _ (by decide),
          aFind_aInsert_self]
      · simp only [apply_span_sampling, h, if_neg hnp, hl]
        rw [aFind_aInsert_ne _ _ _ _ (by decide), aFind_aInsert_self]
      · intro mps hmps
        have hmm : mps = mlim := (Option.some.inj hmps).symm
        subst hmm
        simp only [apply_span_sampling, h, if_neg hnp, hl]
        rw [aFind_aInsert_self]
  · intro span h
    simp [apply_span_sampling, h]
  · have hcond : ¬ (seg.num_finished + 1 < seg.spans.length) := by omega
    obtain ⟨ms, mo, _⟩ := make_decision_preserves trace_decide
      { seg with num_finished := seg.num_finished + 1 }
    have hne2 : (make_sampling_decision_if_null trace_decide
        { seg with num_finished := seg.num_finished + 1 }).spans ≠ [] := by
      rw [ms]
      intro hnil
      rw [hnil] at hlast
      simp at hlast
    have hlen := finalize_spans_length span_sampler
      (make_sampling_decision_if_null trace_decide
        { seg with num_finished := seg.num_finished + 1 }) hne2
    have hget := finalize_spans_get_tail span_sampler
      (make_sampling_decision_if_null trace_decide
        { seg with num_finished := seg.num_finished + 1 }) hne2
    have hroot := finalize_spans_get_root span_sampler
      (make_sampling_decision_if_null trace_decide
        { seg with num_finished := seg.num_finished + 1 }) hne2
    refine ⟨finalize_spans span_sampler
      (make_sampling_decision_if_null trace_decide
        { seg with num_finished := seg.num_finished + 1 }), ?_, ?_, ?_, ?_⟩
    · simp only [span_finished]
      rw [if_neg (by simpa using hcond)]
    · rw [hlen, ms]
    · intro hp
      constructor
      · intro i hi
        rw [hget i hi, if_pos hp, ms, mo]
      · rw [hroot, if_pos hp, ms, mo]
    · intro hp
      constructor
      · intro i hi
        rw [hget i hi, if_neg (by omega), ms, mo]
      · rw [hroot, if_neg (by omega), ms, mo]

theorem span_sampler_finalization_witness :
    scenario6Segment.num_finished + 1 = scenario6Segment.spans.length ∧
    scenario6Segment.origin = none ∧
    ∃ batch,
      (span_finished (fun _ => SamplingDecision.default) scenario6Sampler
        scenario6Segment).2 = some batch ∧
      batch.length = 3 ∧
      batch.get? 1 = some (apply_span_sampling scenario6Sampler (spanNamed "two")) ∧
      aFind (apply_span_sampling scenario6Sampler (spanNamed "two")).numeric_tags
        "_dd.span_sampling.mechanism" = some 8 := by
  have h := span_sampler_finalization (fun _ => SamplingDecision.default) scenario6Sampler
    scenario6Segment (by decide)
  obtain ⟨batch, hb, hlen, hle, _⟩ := h.2.2
  refine ⟨by decide, by decide, batch, hb, ?_, ?_, by decide⟩
  · rw [hlen]
    decide
  · have hx := (hle (by decide)).1 1 (by decide)
    rw [hx]
    decide

end Datadog
